import Mathlib

/-!
Shallow embedding of the auditbot_iso27001 repository (Python sources under
`src/`), covering the parts referenced by the verified properties below:

* `src/utils/ai_helper.py`: text extraction and chunking (`_read_pdf_bytes`,
  `_read_docx_bytes`, `_read_txt_bytes`), cosine similarity (`_cosine_sim`),
  index construction (`build_vector_index`), retrieval (`retrieve_topk`) and
  the per-measure answer proposer (`propose_anssi_answer`).
* `src/app.py`: the free-text status detector (`parse_status_from_text`),
  the status metadata table (`STATUS_META`), dataframe construction
  (`_anssi_build_dataframe`), per-theme maturity (`_anssi_theme_maturity`)
  and the status coercion performed by `_anssi_autofill_from_global`.
* `src/core/analysis.py`: the gap-analysis aggregation (`analyse_responses`).

Python strings are modelled as `List Char`, floats as `ℝ` (exact arithmetic;
the dataframe score column, which only ever holds 0/25/50/100, as `ℚ`/`ℤ`),
dicts as association lists, and calls to the hosted OpenAI services as
explicit function parameters (`embed : List Char → E`) or as an explicit
outcome value (`ChatResult`).  Exceptions are modelled with `Except`.
-/

/- ## Generic character/window helpers -/

/-- Python `c.isspace()` / the characters stripped by `str.strip()`,
restricted to the ASCII whitespace actually occurring in this code base. -/
def isWs (c : Char) : Bool := c.isWhitespace

/-- Python `s.strip()` on a `List Char`. -/
def stripWs (l : List Char) : List Char :=
  ((l.dropWhile isWs).reverse.dropWhile isWs).reverse

/-- Python `pat in t` (substring containment) via an auxiliary
"`pat` starts `t`" test. -/
def leadsWith : List Char → List Char → Bool
  | [], _ => true
  | _ :: _, [] => false
  | a :: as1, b :: bs => a == b && leadsWith as1 bs

/-- Python `pat in t` for a (nonempty) pattern `pat`. -/
def occursIn (pat : List Char) : List Char → Bool
  | [] => leadsWith pat []
  | c :: ts => leadsWith pat (c :: ts) || occursIn pat ts

/-- Python `s.lower()` (ASCII case folding; every non-ASCII character in the
keyword tables of this code base is already lower case). -/
def lowerStr (l : List Char) : List Char := l.map Char.toLower

/-- The list of windows `l[step*0 : step*1], l[step*1 : step*2], ...`
produced by a Python loop `for idx in range(0, len(l), step)`:
`range(0, n, step)` has `⌈n / step⌉ = (n + step - 1) / step` elements. -/
def winChunks (step : ℕ) (l : List α) : List (List α) :=
  (List.range ((l.length + (step - 1)) / step)).map
    fun n => (l.drop (step * n)).take step

/- ## src/utils/ai_helper.py : extraction and chunking -/

namespace AiHelper

/-- One `(doc_name, page_no, text)` triple as produced by the `_read_*_bytes`
readers in `src/utils/ai_helper.py`. -/
structure RawChunk where
  doc : List Char
  page : ℕ
  text : List Char
deriving DecidableEq, Repr

/-- Model of `_read_pdf_bytes` (`src/utils/ai_helper.py:12-20`), with the PyMuPDF
per-page extracted texts given as input: pages are numbered from 1
(`enumerate(doc, start=1)`) and a page is kept only when
`txt and txt.strip()` is truthy, i.e. when some character is
non-whitespace. -/
def read_pdf_bytes (pages : List (List Char)) : List RawChunk :=
  ((List.enumFrom 1 pages).filter
      fun p => p.2.any fun c => !(isWs c)).map
    fun p => { doc := "document.pdf".toList, page := p.1, text := p.2 }

/-- The fixed character window used by `_read_docx_bytes` and
`_read_txt_bytes` (`step = 1800`). -/
def step1800 : ℕ := 1800

/-- The windowing loop shared by `_read_docx_bytes` and `_read_txt_bytes`
(`for idx in range(0, len(text), step): ... (name, 1 + idx // step,
text[idx:idx+step])`), parameterised by the document name. -/
def windows1800 (doc : List Char) (t : List Char) : List RawChunk :=
  (List.range ((t.length + (step1800 - 1)) / step1800)).map
    fun n =>
      { doc := doc
        page := 1 + (step1800 * n) / step1800
        text := (t.drop (step1800 * n)).take step1800 }

/-- Model of `_read_txt_bytes` (`src/utils/ai_helper.py:39-45`), with the
UTF-8-decoded text given as input. -/
def read_txt_bytes (t : List Char) : List RawChunk :=
  windows1800 ("document.txt".toList) t

/-- The paragraph concatenation of `_read_docx_bytes`
(`src/utils/ai_helper.py:26-31`): strip each paragraph, keep the nonempty
ones, join with a newline. -/
def docxText (paras : List (List Char)) : List Char :=
  List.intercalate ['\n'] ((paras.map stripWs).filter fun p => p ≠ [])

/-- Model of `_read_docx_bytes` (`src/utils/ai_helper.py:22-37`), with the python-docx
paragraph texts given as input. -/
def read_docx_bytes (paras : List (List Char)) : List RawChunk :=
  windows1800 ("document.docx".toList) (docxText paras)

/- ## src/utils/ai_helper.py : cosine similarity and retrieval -/

/-- Model of `np.dot` on equal-length 1-D arrays. -/
def dotList (a b : List ℝ) : ℝ := (List.zipWith (· * ·) a b).sum

/-- Model of `np.linalg.norm` on a 1-D array. -/
noncomputable def normList (a : List ℝ) : ℝ :=
  Real.sqrt ((a.map fun x => x * x).sum)

open Classical in
/-- Model of `_cosine_sim` (`src/utils/ai_helper.py:70-73`): `not np.any(v)` is
"every entry of `v` is zero". -/
noncomputable def cosine_sim (a b : List ℝ) : ℝ :=
  if (∀ x ∈ a, x = (0 : ℝ)) ∨ (∀ x ∈ b, x = (0 : ℝ)) then 0
  else dotList a b / (normList a * normList b)

/-- The in-memory vector index (dict keys `chunks`, `embeddings`) built by
`build_vector_index`.  The `meta` field is a projection of `chunks` and is
not modelled separately. -/
structure Index where
  chunks : List RawChunk
  embeddings : List (List ℝ)

/-- The descending-tuple order realised by Python
`sims.sort(reverse=True)` on the `(similarity, position)` pairs of
`retrieve_topk`: `a` precedes `b` iff `a ≥ b` lexicographically.  Since the
positions are pairwise distinct, this relation is total and antisymmetric on
the pair list, so the sorted result is the unique `simOrd`-sorted
permutation — matching CPython list.sort with `reverse=True`. -/
def simOrd (a b : ℝ × ℕ) : Prop :=
  b.1 < a.1 ∨ (a.1 = b.1 ∧ b.2 ≤ a.2)

noncomputable instance : DecidableRel simOrd :=
  fun _ _ => Classical.propDecidable _

instance : IsTotal (ℝ × ℕ) simOrd where
  total a b := by
    rcases lt_trichotomy a.1 b.1 with h | h | h
    · exact Or.inr (Or.inl h)
    · rcases Nat.le_total a.2 b.2 with h2 | h2
      · exact Or.inr (Or.inr ⟨h.symm, h2⟩)
      · exact Or.inl (Or.inr ⟨h, h2⟩)
    · exact Or.inl (Or.inl h)

instance : IsTrans (ℝ × ℕ) simOrd where
  trans a b c hab hbc := by
    rcases hab with h1 | ⟨h1, h1b⟩ <;> rcases hbc with h2 | ⟨h2, h2b⟩
    · exact Or.inl (lt_trans h2 h1)
    · exact Or.inl (h2 ▸ h1)
    · exact Or.inl (h1 ▸ h2)
    · exact Or.inr ⟨h1.trans h2, le_trans h2b h1b⟩

/-- The `(similarity, position)` pair list of `retrieve_topk`
(`sims = [(_cosine_sim(q, e), j) for j, e in enumerate(...)]`). -/
noncomputable def simPairs (q : List ℝ) (index : Index) : List (ℝ × ℕ) :=
  (List.enumFrom 0 index.embeddings).map fun je => (cosine_sim q je.2, je.1)

open Classical in
/-- The pair list after `sims.sort(reverse=True)`. -/
noncomputable def rankedPairs (q : List ℝ) (index : Index) : List (ℝ × ℕ) :=
  List.insertionSort simOrd (simPairs q index)

open Classical in
/-- Model of `retrieve_topk` (`src/utils/ai_helper.py:101-117`).  The query embedding
call `client.embeddings.create(...)` is modelled by the explicit oracle
`embed`; `index["chunks"][j]` by `getD` (every position produced by
`enumFrom` is in range for a well-formed index). -/
noncomputable def retrieve_topk (embed : List Char → List ℝ) (index : Index)
    (query : List Char) (k : ℕ) : List RawChunk :=
  if index.chunks.length = 0 then []
  else
    let q := embed query
    ((rankedPairs q index).take k).map
      fun sj => index.chunks.getD sj.2 { doc := [], page := 0, text := [] }

/- ## src/utils/ai_helper.py : index construction -/

/-- The batching loop of `build_vector_index`
(`for i in range(0, len(texts), 100): ...`): each batch of at most 100
texts is sent to the embeddings endpoint, which returns one vector per
input (modelled by the elementwise oracle `embed`). -/
def batchedMap (embed : List Char → E) (texts : List (List Char)) : List E :=
  ((winChunks 100 texts).map fun batch => batch.map embed).flatten

/-- Model of `build_vector_index` (`src/utils/ai_helper.py:75-99`): empty chunk list
gives the empty index; otherwise each chunk text is truncated to its first
8000 characters (`c["text"][:8000]`, the "guardrail") and embedded in
batches of 100. -/
def build_vector_index (embed : List Char → E) (chunks : List RawChunk) :
    List RawChunk × List E :=
  if chunks = [] then ([], [])
  else (chunks, batchedMap embed (chunks.map fun c => c.text.take 8000))

/- ## src/utils/ai_helper.py : answer proposer -/

/-- One raw citation entry from the parsed JSON payload: the values of the
`doc` and `page` keys after Python `str(...)` conversion. -/
structure CitItem where
  doc : List Char
  page : List Char
deriving DecidableEq, Repr

/-- The fields extracted from a successfully parsed JSON object response:
`data.get("status", "")`, `data.get("justification", "")` and
`data.get("citations", [])` after `str` conversion / the
`isinstance(cits, list)` guard. -/
structure Payload where
  status : List Char
  justification : List Char
  citations : List CitItem
deriving DecidableEq, Repr

/-- The outcome of the `client.chat.completions.create` call in
`propose_anssi_answer`: either the call raises (`err`), or it returns
message content `raw` together with `some` parsed payload when the whole
`try` block succeeds (`json.loads` yields a dict, and every citation entry
is a dict), and `none` when any of those steps raises. -/
inductive ChatResult where
  | err (e : List Char)
  | ok (raw : List Char) (parsed : Option Payload)

/-- The structured result (dict keys `status`, `justification`,
`citations`) returned by `propose_anssi_answer`. -/
structure Answer where
  status : List Char
  justification : List Char
  citations : List (List Char × ℕ)
deriving DecidableEq, Repr

/-- The status guard of `propose_anssi_answer`
(`src/utils/ai_helper.py:152-154`): strip, keep a member of the prompt
enumeration, otherwise coerce a nonempty value to "Partiellement conforme"
and an empty one to "Non évalué". -/
def proposerStatusGuard (s : List Char) : List Char :=
  let st := stripWs s
  if st = "Conforme".toList ∨ st = "Partiellement conforme".toList ∨
      st = "Non conforme".toList ∨ st = "Non applicable".toList then st
  else if st ≠ [] then ("Partiellement conforme".toList)
  else ("Non évalué".toList)

/-- Python `int(s)` on a string of ASCII digits. -/
def digitsToNat (l : List Char) : ℕ :=
  l.foldl (fun acc c => 10 * acc + (c.toNat - 48)) 0

/-- The citation filter of `propose_anssi_answer`
(`src/utils/ai_helper.py:160-165`): keep entries whose stripped `doc` is
nonempty and whose `page` is a nonempty digit string denoting a nonzero
number (`if d and p`). -/
def filterCitations (cits : List CitItem) : List (List Char × ℕ) :=
  (cits.filterMap fun c =>
    let d := stripWs c.doc
    if c.page ≠ [] ∧ c.page.all Char.isDigit then
      some (d, digitsToNat c.page)
    else none).filter fun dp => dp.1 ≠ [] ∧ dp.2 ≠ 0

/-- Model of `propose_anssi_answer` (`src/utils/ai_helper.py:119-169`), given the
outcome of the chat-completion call.  The call itself sits *outside* the
`try`, so a call failure propagates (`Except.error`); only a failure of the
parsing block falls back to status "Non évalué" with the raw content
truncated to 800 characters (`content[:800]`) as justification. -/
def propose_anssi_answer (cr : ChatResult) : Except (List Char) Answer :=
  match cr with
  | .err e => .error e
  | .ok raw parsed =>
    let content := stripWs raw
    match parsed with
    | none =>
      .ok { status := ("Non évalué".toList)
            justification := content.take 800
            citations := [] }
    | some p =>
      .ok { status := proposerStatusGuard p.status
            justification := stripWs p.justification
            citations := filterCitations p.citations }

end AiHelper

/- ## src/app.py : status parsing, scoring, autofill coercion -/

namespace App

/-- The not-applicable keyword table of `parse_status_from_text`
(`src/app.py:262-264`). -/
def naKeywords : List (List Char) :=
  ["not applicable".toList, "n/a".toList, "n.a".toList, "na)".toList,
   "(na".toList, "na ".toList, " non applicable".toList,
   " hors périmètre".toList, " hors perimetre".toList]

/-- The enumeration labels scanned by `parse_status_from_text`
(`src/app.py:267`), in source order. -/
def statusLabels : List (List Char) :=
  ["Conforme".toList, "Partiellement conforme".toList,
   "Non conforme".toList, "Pas réponse".toList, "NA".toList]

/-- The group-2 alternatives of the fallback regular expression of
`parse_status_from_text` (`src/app.py:271-274`), in source order
(Python alternation tries them left to right). -/
def regexAlts : List (List Char) :=
  ["conforme".toList, "partiellement conforme".toList,
   "non conforme".toList, "pas réponse".toList, "na".toList,
   "n/a".toList, "not applicable".toList]

/-- Match attempt of the regex `(statut|status)\s*[:\-]\s*(alt1|...)` at one
fixed start position: the literal label, greedily consumed whitespace, one
of `:`/`-`, greedily consumed whitespace, then the first alternative that
matches.  (Greedy `\s*` needs no backtracking here because neither `:`/`-`
nor the first character of any alternative is whitespace.) -/
def regexAt (t : List Char) : Option (List Char) :=
  (if leadsWith ("statut".toList) t then some (t.drop 6)
   else if leadsWith ("status".toList) t then some (t.drop 6)
   else none).bind fun r =>
    match r.dropWhile isWs with
    | [] => none
    | c :: r2 =>
      if c = ':' ∨ c = '-' then
        regexAlts.find? fun alt => leadsWith alt (r2.dropWhile isWs)
      else none

/-- Model of `re.search` for the above pattern: try every start position left to
right, return the group-2 text of the first match. -/
def regexSearch : List Char → Option (List Char)
  | [] => regexAt []
  | c :: ts =>
    match regexAt (c :: ts) with
    | some v => some v
    | none => regexSearch ts

/-- Model of `parse_status_from_text` (`src/app.py:252-282`): lower-case the text,
first test the not-applicable keywords, then scan the labels in source
order for a (case-insensitive) substring occurrence, finally fall back to
the `statut:`-anchored regex. -/
def parse_status_from_text (txt : List Char) : Option (List Char) :=
  let t := lowerStr txt
  if naKeywords.any fun kw => occursIn kw t then some ("NA".toList)
  else
    match statusLabels.find? fun s => occursIn (lowerStr s) t with
    | some s => some s
    | none =>
      (regexSearch t).bind fun val =>
        if val = "na".toList ∨ val = "n/a".toList ∨
            val = "not applicable".toList then some ("NA".toList)
        else
          (["Conforme".toList, "Partiellement conforme".toList,
            "Non conforme".toList, "Pas réponse".toList].find?
            fun s => lowerStr s = val)

/-- Model of `STATUSES` from `src/core/anssi_hygiene.py:69`. -/
def coreSTATUSES : List (List Char) :=
  ["Conforme".toList, "Partiellement conforme".toList,
   "Non conforme".toList, "Pas réponse".toList]

/-- Model of `STATUSES` as seen by `src/app.py` after the guard at lines 288-292
(`if "NA" not in STATUSES: STATUSES.append("NA")`). -/
def STATUSES : List (List Char) :=
  if ("NA".toList) ∈ coreSTATUSES then coreSTATUSES
  else coreSTATUSES ++ ["NA".toList]

/-- One value of the `STATUS_META` dict (`src/app.py:294-300`); a score of
`none` models Python `None`. -/
structure Meta where
  score : Option ℚ
  emoji : String
  priority : List Char
deriving DecidableEq, Repr

/-- Model of `STATUS_META` (`src/app.py:294-300`) as an association list. -/
def STATUS_META : List (List Char × Meta) :=
  [("Conforme".toList, ⟨some 1, "✅", "Low".toList⟩),
   ("Partiellement conforme".toList, ⟨some (1/2), "🟡", "Medium".toList⟩),
   ("Non conforme".toList, ⟨some 0, "❌", "High".toList⟩),
   ("Pas réponse".toList, ⟨some (1/4), "⚪", "Medium".toList⟩),
   ("NA".toList, ⟨none, "🚫", "N/A".toList⟩)]

/-- Model of `STATUS_META.get(stt, STATUS_META["Pas réponse"])` as used by
`_anssi_build_dataframe` (`src/app.py:310`). -/
def metaFor (stt : List Char) : Meta :=
  (STATUS_META.lookup stt).getD ⟨some (1/4), "⚪", "Medium".toList⟩

/-- One ANSSI measure `{id, theme, title}` of the fixed reference data. -/
structure Measure where
  id : List Char
  theme : List Char
  title : List Char
deriving DecidableEq, Repr

/-- One row of the dataframe built by `_anssi_build_dataframe`
(`src/app.py:305-323`); `scorePct` is the "Score (%)" column
(`int(round(score*100))`, or Python `None` for an undefined score). -/
structure Row where
  theme : List Char
  id : List Char
  mesure : List Char
  statut : List Char
  emoji : String
  scorePct : Option ℤ
  priorite : List Char
  justification : List Char
deriving DecidableEq, Repr

/-- Python string `<` (code-point lexicographic), on `List Char`. -/
def strLt : List Char → List Char → Bool
  | [], [] => false
  | [], _ :: _ => true
  | _ :: _, [] => false
  | a :: as1, b :: bs =>
    if a.val < b.val then true
    else if b.val < a.val then false
    else strLt as1 bs

/-- Row order of `df.sort_values(["Thème","ID"])`: lexicographic on the
(Thème, ID) key pair. -/
def rowLe (a b : Row) : Bool :=
  strLt a.theme b.theme ||
    (a.theme == b.theme && (strLt a.id b.id || a.id == b.id))

/-- Model of `int(round(score*100))` applied to the optional score of a
`STATUS_META` entry (Python `round` and Mathlib `round` agree on every
value this code produces, since `score*100` is always an integer here). -/
def pctOfScore (s : Option ℚ) : Option ℤ :=
  s.map fun q => round (q * 100)

/-- Model of `_anssi_build_dataframe` (`src/app.py:305-323`): one row per measure,
status defaulted to "Pas réponse", score as `int(round(score*100))`,
sorted by (Thème, ID).  `ensure_plain_text` is an uninterpreted text
transformer `ept`. -/
def anssi_build_dataframe (ept : List Char → List Char)
    (measures : List Measure) (status_map justifs_map : List (List Char × List Char)) :
    List Row :=
  List.insertionSort (rowLe · ·) <| measures.map fun m =>
    let stt := (status_map.lookup m.id).getD ("Pas réponse".toList)
    let meta := metaFor stt
    { theme := m.theme
      id := m.id
      mesure := m.title
      statut := stt
      emoji := meta.emoji
      scorePct := pctOfScore meta.score
      priorite := meta.priority
      justification := ept ((justifs_map.lookup m.id).getD []) }

/-- The per-theme mean of `_anssi_theme_maturity` (`src/app.py:325-331`)
before its display rounding: restrict to rows whose "Score (%)" is not
null (`df[df["Score (%)"].notnull()]`), group by theme, and average; a
theme with no such row yields no entry (`none`). -/
def themeMeanPct (df : List Row) (theme : List Char) : Option ℚ :=
  let use := df.filter fun r => r.scorePct.isSome ∧ r.theme = theme
  if use = [] then none
  else some ((use.map fun r => ((r.scorePct.getD 0 : ℤ) : ℚ)).sum / use.length)

/-- The status coercion applied by `_anssi_autofill_from_global` before
storing a proposed status (`src/app.py:673-675` and, identically,
`src/app.py:740-745`): any value outside `STATUSES` becomes
"Pas réponse". -/
def storedAutofillStatus (s : List Char) : List Char :=
  if s ∈ STATUSES then s else ("Pas réponse".toList)

/-- The status stored by the per-measure RAG loop of
`_anssi_autofill_from_global` (`src/app.py:671-683`): on a successful
proposer call, the coerced proposed status; on an exception, the previous
entry of the status map if any, else "Pas réponse". -/
def ragStoredStatus (cr : AiHelper.ChatResult) (prior : Option (List Char)) :
    List Char :=
  match AiHelper.propose_anssi_answer cr with
  | .error _ => prior.getD ("Pas réponse".toList)
  | .ok a => storedAutofillStatus a.status

end App

/- ## src/core/analysis.py : gap aggregation -/

namespace Analysis

/-- One value of the `responses[domain][question]` mapping consumed by
`analyse_responses`: either the structured dict mode (keys `Réponse`,
`Statut`, `Recommandation`, `Priorité`, `Échéance`) or the legacy plain
string mode. -/
inductive RespValue where
  | structured (answer statut reco priorite echeance : List Char)
  | plain (s : List Char)
deriving DecidableEq, Repr

/-- One output row of `analyse_responses`. -/
structure GapRow where
  nomClient : List Char
  domaine : List Char
  question : List Char
  reponse : List Char
  statut : List Char
  recommandation : List Char
  priorite : List Char
  echeance : List Char
deriving DecidableEq, Repr

/-- The recommendation fallback text of `analyse_responses`
(`src/core/analysis.py:37`). -/
def recoFallback (domain : List Char) : List Char :=
  "Compléter et formaliser les mesures existantes pour le domaine \x27".toList
    ++ domain ++ "\x27.".toList

/-- The row built by the loop body of `analyse_responses`
(`src/core/analysis.py:21-52`).  `today90` is the value of
`(datetime.now() + timedelta(days=90)).strftime("%Y-%m-%d")`, i.e. the
clock reading made inside the function, passed explicitly. -/
def gapRow (today90 nomClient domain question : List Char) (v : RespValue) :
    GapRow :=
  let (answer, statut, reco, priorite, echeance) :=
    match v with
    | .structured a s r p e => (a, s, r, p, e)
    | .plain s => (s, [], [], [], [])
  { nomClient := nomClient
    domaine := domain
    question := question
    reponse := answer
    statut := statut
    recommandation := if reco = [] then recoFallback domain else reco
    priorite := if priorite = [] then ("Moyenne".toList) else priorite
    echeance := if echeance = [] then today90 else echeance }

/-- Model of `analyse_responses` (`src/core/analysis.py:12-54`): one row per
`(domain, question)` entry, in mapping iteration order. -/
def analyse_responses (today90 nomClient : List Char)
    (responses : List (List Char × List (List Char × RespValue))) :
    List GapRow :=
  responses.flatMap fun dq =>
    dq.2.map fun qv => gapRow today90 nomClient dq.1 qv.1 qv.2

/-- An answer entry already carries its own due date (structured mode with
a nonempty `Échéance` value), so the `datetime.now()` fallback of
`analyse_responses` is not consulted for it. -/
def hasDueDate : RespValue → Bool
  | .structured _ _ _ _ e => e ≠ []
  | .plain _ => false

end Analysis

/- ## Concrete instances used by the verified properties -/

/-- Four measures in a single theme, for the scoring scenario of the spec
(statuses Conforme, Non conforme, NA, Pas réponse). -/
def c4measures : List App.Measure :=
  [{ id := "M1".toList, theme := "T".toList, title := "t1".toList },
   { id := "M2".toList, theme := "T".toList, title := "t2".toList },
   { id := "M3".toList, theme := "T".toList, title := "t3".toList },
   { id := "M4".toList, theme := "T".toList, title := "t4".toList }]

/-- The status map of the four-measure scoring scenario. -/
def c4status : List (List Char × List Char) :=
  [("M1".toList, "Conforme".toList), ("M2".toList, "Non conforme".toList),
   ("M3".toList, "NA".toList), ("M4".toList, "Pas réponse".toList)]

/-- First chunk (original index position 0) of the tie-break index. -/
def chunkA : AiHelper.RawChunk :=
  { doc := "d.pdf".toList, page := 1, text := "A".toList }

/-- Second chunk (original index position 1) of the tie-break index. -/
def chunkB : AiHelper.RawChunk :=
  { doc := "d.pdf".toList, page := 2, text := "B".toList }

/-- A two-chunk index whose two embeddings are identical, so both chunks
have the same cosine similarity to every query. -/
def idxTie : AiHelper.Index :=
  { chunks := [chunkA, chunkB], embeddings := [[1], [1]] }

/-- A query-embedding oracle returning the constant vector `[1]`. -/
def embed1 : List Char → List ℝ := fun _ => [1]

/-- The index built from zero chunks. -/
def emptyIdx : AiHelper.Index := { chunks := [], embeddings := [] }

/-- A trivial embedding oracle for the empty-index property. -/
def embed0 : List Char → List ℝ := fun _ => []

/-- A chunk whose text is longer than the 8000-character embedding
guardrail of `build_vector_index`. -/
def longChunk : AiHelper.RawChunk :=
  { doc := "document.pdf".toList, page := 1, text := List.replicate 8001 'a' }

/-- A one-domain, one-question assessment map whose entry has an empty due
date, forcing the `datetime.now() + 90 days` fallback. -/
def c10resp : List (List Char × List (List Char × Analysis.RespValue)) :=
  [("D".toList,
    [("Q".toList,
      Analysis.RespValue.structured ("a".toList) ("Conforme".toList) [] [] [])])]

/-- The same assessment map with an explicit due date. -/
def c10respDue : List (List Char × List (List Char × Analysis.RespValue)) :=
  [("D".toList,
    [("Q".toList,
      Analysis.RespValue.structured ("a".toList) ("Conforme".toList)
        ("r".toList) ("p".toList) ("2026-01-01".toList))])]

/- ## General lemmas about the chunking and batching loops -/

theorem ceil_div_step (step n : ℕ) (hs : 0 < step) (hn : 0 < n) :
    (n + (step - 1)) / step = ((n - step) + (step - 1)) / step + 1 := by
  rcases le_or_lt n step with h | h
  · have h1 : n - step = 0 := by omega
    have h2 : n + (step - 1) = (n - 1) + step := by omega
    rw [h1, h2, Nat.add_div_right _ hs, Nat.zero_add,
      Nat.div_eq_of_lt (by omega), Nat.div_eq_of_lt (by omega)]
  · have h2 : n + (step - 1) = ((n - step) + (step - 1)) + step := by omega
    rw [h2, Nat.add_div_right _ hs]

theorem winChunks_nil (step : ℕ) : winChunks step ([] : List α) = [] := by
  cases step with
  | zero => simp [winChunks]
  | succ k => simp [winChunks, Nat.div_eq_of_lt (by omega : k < k + 1)]

theorem winChunks_cons (step : ℕ) (hs : 0 < step) (c : α) (t : List α) :
    winChunks step (c :: t) =
      (c :: t).take step :: winChunks step ((c :: t).drop step) := by
  unfold winChunks
  rw [List.length_drop, ceil_div_step step (c :: t).length hs (by simp),
    List.range_succ_eq_map, List.map_cons, List.map_map]
  have hhead : List.take step (List.drop (step * 0) (c :: t)) = List.take step (c :: t) := by
    simp
  have htail : ((fun n => List.take step (List.drop (step * n) (c :: t))) ∘ Nat.succ) =
      fun n => List.take step (List.drop (step * n) (List.drop step (c :: t))) := by
    funext n
    simp only [Function.comp_apply, List.drop_drop, Nat.mul_succ, Nat.add_comm]
  rw [hhead, htail]

theorem winChunks_flatten (step : ℕ) (hs : 0 < step) (l : List α) :
    (winChunks step l).flatten = l := by
  generalize hn : l.length = n
  induction n using Nat.strong_induction_on generalizing l with
  | _ n ih =>
    cases l with
    | nil => simp [winChunks_nil]
    | cons c t =>
      rw [winChunks_cons step hs, List.flatten_cons,
        ih ((c :: t).drop step).length (by rw [← hn]; simp; omega) _ rfl,
        List.take_append_drop]

theorem batchedMap_eq_map (embed : List Char → E) (texts : List (List Char)) :
    AiHelper.batchedMap embed texts = texts.map embed := by
  rw [AiHelper.batchedMap, ← List.map_flatten, winChunks_flatten 100 (by norm_num)]

theorem enumFrom_filter_map_snd (g : List Char → Bool) :
    ∀ (n : ℕ) (ps : List (List Char)),
      (((List.enumFrom n ps).filter fun p => g p.2).map fun p => p.2) =
        ps.filter g := by
  intro n ps
  induction ps generalizing n with
  | nil => rfl
  | cons p ps ih =>
    rw [List.enumFrom_cons]
    by_cases h : g p
    · rw [List.filter_cons_of_pos (by simpa using h), List.map_cons,
        List.filter_cons_of_pos (by simpa using h), ih]
    · rw [List.filter_cons_of_neg (by simpa using h),
        List.filter_cons_of_neg (by simpa using h), ih]

theorem windows1800_texts (doc t : List Char) :
    (AiHelper.windows1800 doc t).map AiHelper.RawChunk.text = winChunks 1800 t := by
  unfold AiHelper.windows1800 winChunks AiHelper.step1800
  rw [List.map_map]
  rfl

theorem mul1800_div (n : ℕ) : 1800 * n / 1800 = n :=
  Nat.mul_div_cancel_left n (by norm_num)

theorem storedAutofillStatus_mem (s : List Char) :
    App.storedAutofillStatus s ∈ App.STATUSES := by
  unfold App.storedAutofillStatus
  by_cases h : s ∈ App.STATUSES
  · rwa [if_pos h]
  · rw [if_neg h]
    decide

/- ## Claim theorems -/

/-- C1: the spec test vectors for the free-text status parser, checked
against the code.  The second and third vectors hold, but on text of the
form "Statut: Non conforme. ..." the label scan of
`parse_status_from_text` finds the substring "conforme" (inside
"non conforme") before the label "Non conforme" is ever tried, so the code
returns "Conforme" where the spec requires "Non conforme". -/
theorem parse_status_spec_vectors_vs_code :
    App.parse_status_from_text ("Statut: Non conforme. Mesure absente.".toList) =
      some ("Conforme".toList) ∧
    App.parse_status_from_text ("N/A - hors périmètre".toList) =
      some ("NA".toList) ∧
    App.parse_status_from_text ("lorem ipsum".toList) = none := by
  refine ⟨by decide, by decide, by decide⟩

/-- C3: retrieval is total on degenerate inputs: `_cosine_sim` returns 0
whenever either argument is an all-zero vector, and `retrieve_topk` on an
index with zero chunks returns the empty list for every embedding oracle,
query and k. -/
theorem retrieval_total_on_degenerate_inputs :
    (∀ a b : List ℝ, (∀ x ∈ a, x = 0) →
      AiHelper.cosine_sim a b = 0 ∧ AiHelper.cosine_sim b a = 0) ∧
    (∀ (embed : List Char → List ℝ) (idx : AiHelper.Index)
        (query : List Char) (k : ℕ),
      idx.chunks = [] → AiHelper.retrieve_topk embed idx query k = []) := by
  constructor
  · intro a b h
    constructor
    · unfold AiHelper.cosine_sim
      rw [if_pos (Or.inl h)]
    · unfold AiHelper.cosine_sim
      rw [if_pos (Or.inr h)]
  · intro embed idx query k h
    unfold AiHelper.retrieve_topk
    rw [if_pos (by rw [h]; rfl)]

/-- Witness for C3 at concrete inputs. -/
theorem retrieval_total_on_degenerate_inputs_w :
    AiHelper.cosine_sim [0] [5] = 0 ∧ AiHelper.cosine_sim [5] [0] = 0 ∧
    AiHelper.retrieve_topk embed0 emptyIdx ("q".toList) 6 = [] :=
  ⟨(retrieval_total_on_degenerate_inputs.1 [0] [5] (by simp)).1,
   (retrieval_total_on_degenerate_inputs.1 [0] [5] (by simp)).2,
   retrieval_total_on_degenerate_inputs.2 embed0 emptyIdx ("q".toList) 6 rfl⟩

/-- C7 counterexample: the chat-completion call of `propose_anssi_answer`
sits outside the `try` block, so a call failure is not converted to the
"Non évalué" fallback — it propagates to the caller as an exception. -/
theorem proposer_api_failure_propagates :
    AiHelper.propose_anssi_answer (AiHelper.ChatResult.err ("boom".toList)) =
      Except.error ("boom".toList) := rfl

/-- C7 as amended: when the chat-completion call itself returns content,
the proposer never raises; in particular an unparseable response yields the
fixed fallback status "Non évalué" carrying the (stripped) raw model text
truncated to 800 characters as justification.  Only a failure of the call
itself propagates (see the counterexample). -/
theorem proposer_parse_failure_fallback :
    ∀ (raw : List Char) (parsed : Option AiHelper.Payload),
      (AiHelper.propose_anssi_answer (AiHelper.ChatResult.ok raw parsed)).isOk =
        true ∧
      AiHelper.propose_anssi_answer (AiHelper.ChatResult.ok raw none) =
        Except.ok { status := ("Non évalué".toList),
                    justification := (stripWs raw).take 800,
                    citations := [] } := by
  intro raw parsed
  constructor
  · cases parsed <;> rfl
  · rfl

/-- C8: every status the autofill pipeline stores lies in the closed
five-value domain `STATUSES = {Conforme, Partiellement conforme,
Non conforme, Pas réponse, NA}`: the guard `if status not in STATUSES:
status = "Pas réponse"` runs on both autofill paths, and the exception
branch keeps the previous (in-domain) entry or defaults to "Pas réponse". -/
theorem stored_status_in_closed_domain :
    (∀ s : List Char, App.storedAutofillStatus s ∈ App.STATUSES) ∧
    (∀ (cr : AiHelper.ChatResult) (prior : Option (List Char)),
      (∀ p ∈ prior, p ∈ App.STATUSES) →
      App.ragStoredStatus cr prior ∈ App.STATUSES) := by
  refine ⟨storedAutofillStatus_mem, ?_⟩
  intro cr prior hp
  unfold App.ragStoredStatus
  cases cr with
  | err e =>
    cases prior with
    | none =>
      simp only [AiHelper.propose_anssi_answer, Option.getD_none]
      decide
    | some p =>
      simpa only [AiHelper.propose_anssi_answer, Option.getD_some] using hp p rfl
  | ok raw parsed =>
    cases parsed <;> exact storedAutofillStatus_mem _

/-- Witness for C8 at concrete inputs. -/
theorem stored_status_in_closed_domain_w :
    App.storedAutofillStatus ("Non applicable".toList) ∈ App.STATUSES ∧
    App.ragStoredStatus (AiHelper.ChatResult.ok ("x".toList) none) none ∈
      App.STATUSES :=
  ⟨stored_status_in_closed_domain.1 ("Non applicable".toList),
   stored_status_in_closed_domain.2 (AiHelper.ChatResult.ok ("x".toList) none)
     none (by simp)⟩

/-- C9 counterexample: `build_vector_index` embeds only the first 8000
characters of each chunk text (the `[:8000]` guardrail), so for a chunk of
8001 characters the stored embedding is the embedding of the truncation,
not of `chunks[i].text` (shown with the oracle `List.length`: the stored
value is 8000 while embedding the full text gives 8001). -/
theorem embedding_truncated_at_8000 :
    (AiHelper.build_vector_index List.length [longChunk]).2 = [8000] ∧
    List.length longChunk.text = 8001 ∧
    (AiHelper.build_vector_index List.length [longChunk]).1 = [longChunk] := by
  refine ⟨?_, ?_, ?_⟩
  · rw [AiHelper.build_vector_index, if_neg (by simp)]
    rw [List.map_cons, List.map_nil, batchedMap_eq_map, List.map_cons,
      List.map_nil]
    show [((List.replicate 8001 'a').take 8000).length] = [8000]
    rw [List.take_replicate, List.length_replicate]
    norm_num
  · show (List.replicate 8001 'a').length = 8001
    rw [List.length_replicate]
  · rw [AiHelper.build_vector_index, if_neg (by simp)]

/-- C9 as amended: for every embedding oracle and chunk list, the built
index has as many embeddings as chunks, each embedding is the oracle
applied to the corresponding chunk text truncated to 8000 characters, and
the chunk count does not depend on the oracle (so rebuilding from the same
extracted chunks yields the same chunk count). -/
theorem index_lengths_and_truncated_embeddings :
    ∀ (E : Type) (embed : List Char → E) (chunks : List AiHelper.RawChunk),
      (AiHelper.build_vector_index embed chunks).1.length =
        (AiHelper.build_vector_index embed chunks).2.length ∧
      (AiHelper.build_vector_index embed chunks).2 =
        (AiHelper.build_vector_index embed chunks).1.map
          (fun c => embed (c.text.take 8000)) ∧
      ∀ (E2 : Type) (e2 : List Char → E2),
        (AiHelper.build_vector_index embed chunks).1.length =
          (AiHelper.build_vector_index e2 chunks).1.length := by
  intro E embed chunks
  by_cases h : chunks = []
  · subst h
    exact ⟨rfl, rfl, fun E2 e2 => rfl⟩
  · rw [AiHelper.build_vector_index, if_neg h]
    refine ⟨?_, ?_, ?_⟩
    · simp [batchedMap_eq_map]
    · simp [batchedMap_eq_map]
    · intro E2 e2
      rw [AiHelper.build_vector_index, if_neg h]

/-- C10 counterexample: `analyse_responses` reads the clock
(`datetime.now() + timedelta(days=90)`) to fill in a missing due date, so
two runs over the same unchanged assessment map made on different dates
produce different rows — the aggregation is not free of hidden time
dependence. -/
theorem analyse_depends_on_clock :
    Analysis.analyse_responses ("2026-01-10".toList) [] c10resp ≠
      Analysis.analyse_responses ("2026-04-10".toList) [] c10resp := by
  decide

/-- C10 as amended: the aggregation has no hidden mutable state other than
the clock read used for the due-date fallback: whenever every entry is a
structured answer with a nonempty due date, the output rows are
independent of the date on which the aggregation runs, hence two runs over
an unchanged assessment map are identical. -/
theorem analyse_clock_free_when_due_dates_present :
    ∀ (t1 t2 nom : List Char)
      (rs : List (List Char × List (List Char × Analysis.RespValue))),
      (∀ dq ∈ rs, ∀ qv ∈ dq.2, Analysis.hasDueDate qv.2 = true) →
      Analysis.analyse_responses t1 nom rs =
        Analysis.analyse_responses t2 nom rs := by
  intro t1 t2 nom rs h
  induction rs with
  | nil => rfl
  | cons dq rs ih =>
    unfold Analysis.analyse_responses at *
    rw [List.flatMap_cons, List.flatMap_cons,
      ih (fun a ha qv hqv => h a (List.mem_cons_of_mem _ ha) qv hqv)]
    congr 1
    refine List.map_congr_left fun qv hqv => ?_
    have hd := h dq (List.mem_cons_self _ _) qv hqv
    cases hv : qv.2 with
    | structured a s r p e =>
      rw [hv] at hd
      have he : e ≠ [] := by simpa [Analysis.hasDueDate] using hd
      simp [Analysis.gapRow, he]
    | plain s =>
      rw [hv] at hd
      simp [Analysis.hasDueDate] at hd

/-- Witness for C10 as amended, at a concrete assessment map whose entry
carries an explicit due date. -/
theorem analyse_clock_free_when_due_dates_present_w :
    Analysis.analyse_responses ("2026-01-10".toList) [] c10respDue =
      Analysis.analyse_responses ("2026-04-10".toList) [] c10respDue :=
  analyse_clock_free_when_due_dates_present ("2026-01-10".toList)
    ("2026-04-10".toList) [] c10respDue (by decide)

/-- Pages of the 1800-character windowing are `1 + offset // step`,
i.e. `1 + n` for the n-th window. -/
theorem windows1800_pages (doc t : List Char) :
    (AiHelper.windows1800 doc t).map AiHelper.RawChunk.page =
      (List.range ((t.length + 1799) / 1800)).map fun n => 1 + n := by
  unfold AiHelper.windows1800 AiHelper.step1800
  rw [List.map_map]
  refine List.map_congr_left fun n _ => ?_
  simp [mul1800_div]

/-- C5: the TXT reader (and, through the same windowing loop, the DOCX
reader) emits fixed-size 1800-character windows with synthetic page
`1 + offset // step`; a 5000-character text yields exactly 3 chunks with
pages 1, 2, 3. -/
theorem txt_chunk_pages_and_scenario :
    (∀ t : List Char,
      (AiHelper.read_txt_bytes t).map AiHelper.RawChunk.page =
        (List.range ((t.length + 1799) / 1800)).map fun n => 1 + n) ∧
    (∀ paras : List (List Char),
      (AiHelper.read_docx_bytes paras).map AiHelper.RawChunk.page =
        (List.range (((AiHelper.docxText paras).length + 1799) / 1800)).map
          fun n => 1 + n) ∧
    (∀ t : List Char, t.length = 5000 →
      (AiHelper.read_txt_bytes t).length = 3 ∧
      (AiHelper.read_txt_bytes t).map AiHelper.RawChunk.page = [1, 2, 3]) := by
  refine ⟨fun t => windows1800_pages _ t, fun paras => windows1800_pages _ _,
    fun t ht => ⟨?_, ?_⟩⟩
  · unfold AiHelper.read_txt_bytes AiHelper.windows1800 AiHelper.step1800
    rw [List.length_map, List.length_range, ht]
  · rw [AiHelper.read_txt_bytes, windows1800_pages, ht]
    decide

/-- Witness for C5 at a concrete 5000-character text. -/
theorem txt_chunk_pages_and_scenario_w :
    (AiHelper.read_txt_bytes (List.replicate 5000 'a')).length = 3 ∧
    (AiHelper.read_txt_bytes (List.replicate 5000 'a')).map
      AiHelper.RawChunk.page = [1, 2, 3] :=
  txt_chunk_pages_and_scenario.2.2 (List.replicate 5000 'a')
    (by rw [List.length_replicate])

/-- C6 counterexample: a whitespace-only TXT window is not dropped — the
one-space document produces one chunk whose text is the single space, so
the claim that every whitespace-only segment is dropped fails for the
DOCX/TXT windowing path (only the PDF path filters such segments). -/
theorem txt_whitespace_window_kept :
    AiHelper.read_txt_bytes [' '] =
      [{ doc := "document.txt".toList, page := 1, text := [' '] }] ∧
    ([' '].all Char.isWhitespace) = true := by
  exact ⟨by decide, by decide⟩

/-- C6 as amended: concatenating the TXT (resp. DOCX) chunk texts in order
reproduces the extracted text exactly — nothing at all is dropped by the
windowing, including whitespace-only windows (see the counterexample) —
while the PDF reader keeps precisely the pages containing a
non-whitespace character, so only there is the output "the extracted text
minus whitespace-only segments". -/
theorem chunk_concat_and_pdf_filter :
    (∀ t : List Char,
      ((AiHelper.read_txt_bytes t).map AiHelper.RawChunk.text).flatten = t) ∧
    (∀ paras : List (List Char),
      ((AiHelper.read_docx_bytes paras).map AiHelper.RawChunk.text).flatten =
        AiHelper.docxText paras) ∧
    (∀ ps : List (List Char),
      (AiHelper.read_pdf_bytes ps).map AiHelper.RawChunk.text =
        ps.filter fun p => p.any fun c => !(isWs c)) ∧
    (∀ (ps : List (List Char)) (c : AiHelper.RawChunk),
      c ∈ AiHelper.read_pdf_bytes ps →
      c.text.any (fun ch => !(isWs ch)) = true) := by
  refine ⟨?_, ?_, ?_, ?_⟩
  · intro t
    rw [AiHelper.read_txt_bytes, windows1800_texts,
      winChunks_flatten 1800 (by norm_num)]
  · intro paras
    rw [AiHelper.read_docx_bytes, windows1800_texts,
      winChunks_flatten 1800 (by norm_num)]
  · intro ps
    unfold AiHelper.read_pdf_bytes
    rw [List.map_map]
    exact enumFrom_filter_map_snd (fun x => x.any fun c => !(isWs c)) 1 ps
  · intro ps c hc
    unfold AiHelper.read_pdf_bytes at hc
    rcases List.mem_map.mp hc with ⟨p, hp, rfl⟩
    exact (List.mem_filter.mp hp).2

/-- Witness for C6 as amended at concrete inputs. -/
theorem chunk_concat_and_pdf_filter_w :
    ((AiHelper.read_txt_bytes ("ab".toList)).map AiHelper.RawChunk.text).flatten =
      "ab".toList ∧
    ({ doc := "document.pdf".toList, page := 1, text := "a".toList } :
        AiHelper.RawChunk).text.any (fun ch => !(isWs ch)) = true :=
  ⟨chunk_concat_and_pdf_filter.1 ("ab".toList),
   chunk_concat_and_pdf_filter.2.2.2 ["a".toList] _ (by decide)⟩

/-- C4: the status-to-score lookup is Conforme↦1, Partiellement
conforme↦0.5, Non conforme↦0, Pas réponse↦0.25, NA↦undefined, and on the
spec scenario (four measures of one theme with statuses Conforme,
Non conforme, NA, Pas réponse) the per-theme mean over defined scores is
(100 + 0 + 25) / 3 = 125/3 percent, i.e. exactly (1.0 + 0.0 + 0.25)/3 of
100 — the NA row is excluded from numerator and denominator. -/
theorem theme_mean_excludes_na :
    (App.metaFor ("Conforme".toList)).score = some 1 ∧
    (App.metaFor ("Partiellement conforme".toList)).score = some (1/2) ∧
    (App.metaFor ("Non conforme".toList)).score = some 0 ∧
    (App.metaFor ("Pas réponse".toList)).score = some (1/4) ∧
    (App.metaFor ("NA".toList)).score = none ∧
    App.themeMeanPct (App.anssi_build_dataframe id c4measures c4status [])
      ("T".toList) = some (125 / 3) ∧
    (125 / 3 : ℚ) = (1 + 0 + 1/4) / 3 * 100 := by
  refine ⟨rfl, rfl, rfl, rfl, rfl, ?_, by norm_num⟩
  have h1 : App.pctOfScore (some 1) = some 100 := by
    norm_num [App.pctOfScore, round_eq]
  have h3 : App.pctOfScore (some (1/4)) = some 25 := by
    norm_num [App.pctOfScore, round_eq]
  have h4 : App.pctOfScore (some 0) = some 0 := by
    norm_num [App.pctOfScore, round_eq]
  rw [show App.anssi_build_dataframe id c4measures c4status [] =
      [{ theme := "T".toList, id := "M1".toList, mesure := "t1".toList,
         statut := "Conforme".toList, emoji := "✅",
         scorePct := App.pctOfScore (some 1),
         priorite := "Low".toList, justification := [] },
       { theme := "T".toList, id := "M2".toList, mesure := "t2".toList,
         statut := "Non conforme".toList, emoji := "❌",
         scorePct := App.pctOfScore (some 0),
         priorite := "High".toList, justification := [] },
       { theme := "T".toList, id := "M3".toList, mesure := "t3".toList,
         statut := "NA".toList, emoji := "🚫",
         scorePct := App.pctOfScore none,
         priorite := "N/A".toList, justification := [] },
       { theme := "T".toList, id := "M4".toList, mesure := "t4".toList,
         statut := "Pas réponse".toList, emoji := "⚪",
         scorePct := App.pctOfScore (some (1/4)),
         priorite := "Medium".toList, justification := [] }] from rfl,
    h1, h3, h4, show App.pctOfScore none = none from rfl]
  simp +decide [App.themeMeanPct]
  norm_num

/-- C2 counterexample: on a two-chunk index whose embeddings are identical
(hence whose cosine similarities to any query are numerically equal),
`retrieve_topk` returns the chunk at original position 1 before the chunk
at original position 0: Python `sims.sort(reverse=True)` sorts the
`(similarity, position)` tuples descending, so on equal similarity the
larger position wins — "first-indexed wins" is false. -/
theorem retrieve_tie_ranks_second_chunk_first :
    AiHelper.retrieve_topk embed1 idxTie ("q".toList) 6 = [chunkB, chunkA] ∧
    chunkA ≠ chunkB ∧
    idxTie.chunks = [chunkA, chunkB] ∧
    idxTie.embeddings = [[1], [1]] := by
  have hcos : AiHelper.cosine_sim [1] [1] = 1 := by
    unfold AiHelper.cosine_sim AiHelper.dotList AiHelper.normList
    rw [if_neg (by simp)]
    simp [Real.sqrt_one]
  have hsp : AiHelper.simPairs [1] idxTie = [(1, 0), (1, 1)] := by
    unfold AiHelper.simPairs idxTie
    simp [hcos, List.enumFrom]
  have h01 : ¬ AiHelper.simOrd ((1 : ℝ), 0) (1, 1) := by
    unfold AiHelper.simOrd
    simp
  have hrank : AiHelper.rankedPairs [1] idxTie = [(1, 1), (1, 0)] := by
    unfold AiHelper.rankedPairs
    rw [hsp]
    simp [List.insertionSort, List.orderedInsert, h01, -Prod.mk_one_one]
  refine ⟨?_, by decide, rfl, rfl⟩
  unfold AiHelper.retrieve_topk
  rw [if_neg (by decide)]
  show ((AiHelper.rankedPairs [1] idxTie).take 6).map
    (fun sj => idxTie.chunks.getD sj.2 { doc := [], page := 0, text := [] }) =
    [chunkB, chunkA]
  rw [hrank]
  rfl

/-- C2 as amended: for every embedding oracle, index and query, the ranked
pair list of `retrieve_topk` is sorted by `simOrd` — cosine similarity
descending, and on numerically equal similarity the *larger* original
position first (last-indexed wins, not first-indexed) — it is a
permutation of the full `(similarity, position)` list, and on a non-empty
index the returned chunks are exactly the first k entries of that ranking
mapped back to their chunks. -/
theorem retrieve_rank_descending_ties_larger_position :
    ∀ (embed : List Char → List ℝ) (idx : AiHelper.Index)
      (query : List Char) (k : ℕ),
      List.Sorted AiHelper.simOrd (AiHelper.rankedPairs (embed query) idx) ∧
      (AiHelper.rankedPairs (embed query) idx).Perm
        (AiHelper.simPairs (embed query) idx) ∧
      (idx.chunks.length ≠ 0 →
        AiHelper.retrieve_topk embed idx query k =
          ((AiHelper.rankedPairs (embed query) idx).take k).map
            fun sj => idx.chunks.getD sj.2 { doc := [], page := 0, text := [] }) := by
  intro embed idx query k
  refine ⟨?_, ?_, fun h => ?_⟩
  · unfold AiHelper.rankedPairs
    exact List.sorted_insertionSort _ _
  · unfold AiHelper.rankedPairs
    exact List.perm_insertionSort _ _
  · unfold AiHelper.retrieve_topk
    rw [if_neg h]

/-- Witness for C2 as amended at a concrete index and query. -/
theorem retrieve_rank_descending_ties_larger_position_w :
    List.Sorted AiHelper.simOrd (AiHelper.rankedPairs (embed1 ("q".toList)) idxTie) ∧
    (AiHelper.rankedPairs (embed1 ("q".toList)) idxTie).Perm
      (AiHelper.simPairs (embed1 ("q".toList)) idxTie) ∧
    AiHelper.retrieve_topk embed1 idxTie ("q".toList) 6 =
      ((AiHelper.rankedPairs (embed1 ("q".toList)) idxTie).take 6).map
        fun sj => idxTie.chunks.getD sj.2 { doc := [], page := 0, text := [] } :=
  ⟨(retrieve_rank_descending_ties_larger_position embed1 idxTie ("q".toList) 6).1,
   (retrieve_rank_descending_ties_larger_position embed1 idxTie ("q".toList) 6).2.1,
   (retrieve_rank_descending_ties_larger_position embed1 idxTie ("q".toList) 6).2.2
     (by decide)⟩
